import Mathlib

/-!
Shallow embedding of the valuation engine of the
Automated-Valuation-Report-Generation-for-Real-Estate-Business repository:
`src/valuation_calculator.py` (the `ValuationCalculator` with error-carrying
results), `src/data_processing/data_processor.py` (comparable selection),
`src/config.py` (`VALUATION_METHODS`) and the all-methods sort of `main.py`.

Numeric modelling: the Python code computes with IEEE floats; here all
arithmetic is exact over `ℚ`, with the decimal literals of the source
(0.5, 0.75, 0.06, 0.8, 1.2, ...) read as the rationals they denote.
`round(x, 2)` is modelled by `round2` using Mathlib's `round` (half rounds
up, while Python rounds half to even); no statement below touches an exact
half-cent tie.  `np.std` takes a real square root, which in general has no
rational representative; the standard deviation is therefore passed to
`calculate_sales_comparison` as an explicit parameter `σ`, and every
theorem quantifies over all values of `σ`, hence holds in particular at the
true standard deviation of the adjusted prices.  Concrete instances below
choose inputs whose exact standard deviation is rational.

Python dictionaries with possibly-missing keys are modelled as structures of
`Option`-valued fields; `d.get(k, v)` becomes `(field).getD v` and `d.get(k)`
the `Option` itself.  An empty `property_details` dict (falsy in Python, and
tested by `if not property_details`) is modelled as `none` in
`Option PropertyDetails`.  The `details` payload keeps the fields some claim
refers to (`error`, `adjustments`, `comparables`); purely presentational
entries (`statistics`, `noi`, `weights`, ...) are elided, as no claim and no
control flow reads them back.
-/

/-- Python `round(x, 2)`: round to two decimal digits. -/
def round2 (x : ℚ) : ℚ := (round (100 * x) : ℤ) / 100

/-- `np.mean` over an exact rational list (the engine only applies it to
non-empty lists). -/
def mean (xs : List ℚ) : ℚ := xs.sum / xs.length

/-- A `property_details` dictionary (a row of `property_data.csv`, or a
scraped record): the keys the engine reads, each possibly absent. -/
structure PropertyDetails where
  id : Option String := none
  property_type : Option String := none
  bedrooms : Option ℚ := none
  bathrooms : Option ℚ := none
  sqft : Option ℚ := none
  lot_size : Option ℚ := none
  annual_rent : Option ℚ := none
deriving DecidableEq

/-- A comparable-sale record (a row of `comparable_sales.csv`): the keys the
engine reads, each possibly absent (pandas `NaN` / missing key). -/
structure Comp where
  id : Option String := none
  property_type : Option String := none
  bedrooms : Option ℚ := none
  bathrooms : Option ℚ := none
  sqft : Option ℚ := none
  sale_price : Option ℚ := none
deriving DecidableEq

/-- One record of the `adjustments` list built by
`ValuationCalculator.calculate_sales_comparison`: the `comp_id`,
`original_price` (stored un-defaulted, `comp.get('sale_price')`), the three
breakdown components, and the `adjusted_price`. -/
structure Adjustment where
  comp_id : Option String
  original_price : Option ℚ
  size_adj : ℚ
  bed_adj : ℚ
  bath_adj : ℚ
  adjusted_price : ℚ
deriving DecidableEq

/-- The `details` dictionary of a `ValuationResult`, restricted to the
entries read by some claim: the `error` message of a failed computation, and
the `adjustments` / `comparables` payload of the sales-comparison method. -/
structure Details where
  error : Option String := none
  adjustments : List Adjustment := []
  comparables : List Comp := []
deriving DecidableEq

/-- `ValuationResult` of `src/valuation_calculator.py`. -/
structure ValuationResult where
  method : String
  value : ℚ
  confidence : ℚ
  details : Details
deriving DecidableEq

/-- `ValuationResult.__init__` (lines 15–19): stores the fields, clamping
`confidence` to `[0, 1]` via `max(0.0, min(1.0, confidence))`. -/
def ValuationResult.make (method : String) (value : ℚ) (confidence : ℚ)
    (details : Details) : ValuationResult :=
  { method := method
    value := value
    confidence := max 0 (min 1 confidence)
    details := details }

/-- pandas `Series.between` (inclusive on both ends) applied to one cell; a
missing value (`NaN`) never satisfies the bounds. -/
def cellBetween (x : Option ℚ) (lo hi : ℚ) : Bool :=
  match x with
  | none => false
  | some v => decide (lo ≤ v) && decide (v ≤ hi)

/-- The filtering pipeline of `DataProcessor.get_comparable_sales`
(`src/data_processing/data_processor.py` lines 173–216): four filters
applied in sequence, each only when the subject carries the key, then
truncation to `max_comparables`.  Note the lower bounds of the bedrooms and
bathrooms filters are clamped at 1 by the source
(`max(1, subject['bedrooms'] - 1)` and `max(1, subject['bathrooms'] - 0.5)`). -/
def get_comparable_sales (subject : PropertyDetails) (candidates : List Comp)
    (max_comparables : ℕ) : List Comp :=
  let c1 : List Comp := match subject.property_type with
    | some pt => candidates.filter (fun c => c.property_type == some pt)
    | none => candidates
  let c2 : List Comp := match subject.bedrooms with
    | some b => c1.filter (fun c => cellBetween c.bedrooms (max 1 (b - 1)) (b + 1))
    | none => c1
  let c3 : List Comp := match subject.bathrooms with
    | some b => c2.filter (fun c => cellBetween c.bathrooms (max 1 (b - 1/2)) (b + 1/2))
    | none => c2
  let c4 : List Comp := match subject.sqft with
    | some q => c3.filter (fun c => cellBetween c.sqft (q * (4/5)) (q * (6/5)))
    | none => c3
  c4.take max_comparables

/-- Modelled from the spec: the §4.1 `ComparableSelector` filter exactly as
the spec words it — `property_type` equal, `bedrooms` within
`[subject.bedrooms − 1, subject.bedrooms + 1]`, `bathrooms` within
`[subject.bathrooms − 0.5, subject.bathrooms + 0.5]`, `sqft` within
`[subject.sqft × 0.8, subject.sqft × 1.2]`, all inclusive and unclamped.
Used only to compare the spec's selection against the source's. -/
def specMatches (subject : PropertyDetails) (c : Comp) : Bool :=
  c.property_type == subject.property_type &&
  cellBetween c.bedrooms (subject.bedrooms.getD 0 - 1) (subject.bedrooms.getD 0 + 1) &&
  cellBetween c.bathrooms (subject.bathrooms.getD 0 - 1/2) (subject.bathrooms.getD 0 + 1/2) &&
  cellBetween c.sqft (subject.sqft.getD 0 * (4/5)) (subject.sqft.getD 0 * (6/5))

/-- Modelled from the spec: the §4.1 selector contract — spec-matching
candidates in presented order, truncated to `max_count`. -/
def selectSpec (subject : PropertyDetails) (candidates : List Comp)
    (max_count : ℕ) : List Comp :=
  (candidates.filter (specMatches subject)).take max_count

/-- `comp['sale_price'] / max(1, comp['sqft'])` with the source's `dict.get`
defaults (`comp.get('sale_price', 0)`, `comp.get('sqft', 1)`), from
`calculate_sales_comparison` line 41. -/
def pricePerSqft (comp : Comp) : ℚ :=
  comp.sale_price.getD 0 / max 1 (comp.sqft.getD 1)

/-- One iteration of the comparables loop of
`ValuationCalculator.calculate_sales_comparison` (lines 40–64): the three
dollar adjustments and the adjusted price, packaged as the `adjustments`
record the source appends. -/
def adjust (subject : PropertyDetails) (comp : Comp) : Adjustment :=
  let price_per_sqft := pricePerSqft comp
  let size_diff := subject.sqft.getD 0 - comp.sqft.getD 0
  let bed_diff := subject.bedrooms.getD 0 - comp.bedrooms.getD 0
  let bath_diff := subject.bathrooms.getD 0 - comp.bathrooms.getD 0
  let size_adj := size_diff * price_per_sqft * (1/2)
  let bed_adj := bed_diff * 10000
  let bath_adj := bath_diff * 7500
  let total_adj := size_adj + bed_adj + bath_adj
  { comp_id := comp.id
    original_price := comp.sale_price
    size_adj := size_adj
    bed_adj := bed_adj
    bath_adj := bath_adj
    adjusted_price := comp.sale_price.getD 0 + total_adj }

/-- `ValuationCalculator.calculate_sales_comparison` (lines 25–98).  The
repository's answer to `get_comparable_sales` is passed in as `comparables`
(a `None` answer and an empty list are both falsy in the source and take the
same branch, so both are modelled by `[]`); `σ` stands for
`np.std(adjusted_prices)` (see the module comment).  The source's second
emptiness guard (line 66) is unreachable: `adjusted_prices` has one entry
per comparable. -/
def calculate_sales_comparison (property_details : Option PropertyDetails)
    (comparables : List Comp) (σ : ℚ) : ValuationResult :=
  match property_details with
  | none =>
    ValuationResult.make "sales_comparison" 0 0 { error := some "No property details provided" }
  | some subject =>
    if comparables.isEmpty then
      ValuationResult.make "sales_comparison" 0 0 { error := some "No comparable sales found" }
    else
      let adjustments := comparables.map (adjust subject)
      let adjusted_prices := adjustments.map (fun a => a.adjusted_price)
      let avg_value := mean adjusted_prices
      let confidence : ℚ := if avg_value ≠ 0 then min 1 (max (1/2) (1 - σ / avg_value)) else 1/2
      ValuationResult.make "sales_comparison" (round2 avg_value) (round2 confidence)
        { error := none, adjustments := adjustments, comparables := comparables }

/-- `ValuationCalculator.calculate_income_approach` (lines 100–133):
`noi = annual_rent * 0.75`, `value = noi / 0.06` rounded to two decimals,
confidence 0.7; a missing `annual_rent` (or an empty dict) takes the
error branch. -/
def calculate_income_approach (property_details : Option PropertyDetails) : ValuationResult :=
  match property_details with
  | none =>
    ValuationResult.make "income_approach" 0 0 { error := some "No property details provided" }
  | some subject =>
    match subject.annual_rent with
    | none =>
      ValuationResult.make "income_approach" 0 0 { error := some "Annual rent data missing" }
    | some annual_rent =>
      let noi := annual_rent * (3/4)
      let value := noi / (3/50)
      ValuationResult.make "income_approach" (round2 value) (7/10) { error := none }

/-- `ValuationCalculator.calculate_cost_approach` (lines 135–172):
`value = lot_size * 2 + sqft * 150 - sqft * 150 * 0.1` rounded to two
decimals, confidence 0.6; missing numeric fields default to 0. -/
def calculate_cost_approach (property_details : Option PropertyDetails) : ValuationResult :=
  match property_details with
  | none =>
    ValuationResult.make "cost_approach" 0 0 { error := some "No property details provided" }
  | some subject =>
    let sqft := subject.sqft.getD 0
    let lot_size := subject.lot_size.getD 0
    let building_value := sqft * 150
    let depreciation := building_value * (1/10)
    let land_value := lot_size * 2
    let value := land_value + building_value - depreciation
    ValuationResult.make "cost_approach" (round2 value) (3/5) { error := none }

/-- `ValuationCalculator.calculate_hybrid_valuation` (lines 174–220): the
three sub-results blended at fixed weights 0.5 / 0.3 / 0.2, value and
confidence each rounded to two decimals.  The sub-calls never raise (each
returns an error-carrying result instead), so the source's `except` branch
is unreachable.  The `components` entry of the source's details dict is
elided (see the module comment). -/
def calculate_hybrid_valuation (property_details : Option PropertyDetails)
    (comparables : List Comp) (σ : ℚ) : ValuationResult :=
  let sales_comp := calculate_sales_comparison property_details comparables σ
  let income := calculate_income_approach property_details
  let cost := calculate_cost_approach property_details
  let weighted_value :=
    sales_comp.value * (1/2) + income.value * (3/10) + cost.value * (1/5)
  let weighted_confidence :=
    sales_comp.confidence * (1/2) + income.confidence * (3/10) + cost.confidence * (1/5)
  ValuationResult.make "hybrid" (round2 weighted_value) (round2 weighted_confidence) { error := none }

/-- `ValuationCalculator.calculate_valuation` (lines 222–246): the method
dispatcher.  An empty `property_details` raises `"No property details
provided"` before the method name is inspected; an unrecognized name raises
`"Unknown valuation method: {method}"`; both are caught and returned as
error-carrying results whose `method` field echoes the caller's string. -/
def calculate_valuation (property_details : Option PropertyDetails)
    (comparables : List Comp) (σ : ℚ) (method : String) : ValuationResult :=
  match property_details with
  | none =>
    ValuationResult.make method 0 0 { error := some "No property details provided" }
  | some subject =>
    if method = "sales_comparison" then
      calculate_sales_comparison (some subject) comparables σ
    else if method = "income_approach" then
      calculate_income_approach (some subject)
    else if method = "cost_approach" then
      calculate_cost_approach (some subject)
    else if method = "hybrid" then
      calculate_hybrid_valuation (some subject) comparables σ
    else
      ValuationResult.make method 0 0 { error := some ("Unknown valuation method: " ++ method) }

/-- `VALUATION_METHODS` of `src/config.py`. -/
def VALUATION_METHODS : List String :=
  ["sales_comparison", "income_approach", "cost_approach", "hybrid"]

/-- The comparison underlying `main.py` line 158,
`valuation_results.sort(key=lambda x: x.confidence, reverse=True)`:
`a` may precede `b` exactly when `a.confidence ≥ b.confidence`. -/
def confGe (a b : ValuationResult) : Prop := b.confidence ≤ a.confidence

instance : DecidableRel confGe :=
  fun a b => inferInstanceAs (Decidable (b.confidence ≤ a.confidence))

instance : IsTotal ValuationResult confGe :=
  ⟨fun a b => le_total b.confidence a.confidence⟩

instance : IsTrans ValuationResult confGe :=
  ⟨fun _ _ _ hab hbc => le_trans hbc hab⟩

/-- Python's `list.sort` is stable, also under `reverse=True`; the unique
stable descending-by-confidence reordering is realised here by a stable
insertion sort (`List.insertionSort` inserts each element before the first
one it is `confGe`-related to, hence before equal-confidence elements that
followed it). -/
def sortByConfidenceDesc (rs : List ValuationResult) : List ValuationResult :=
  rs.insertionSort confGe

/-- The `--all-methods` path of `main()` (`main.py` lines 148–158): one
`calculate_valuation` per entry of `VALUATION_METHODS` (every result is a
truthy object, so every result is appended), then the in-place sort by
confidence, highest first. -/
def run_all_methods (property_details : Option PropertyDetails)
    (comparables : List Comp) (σ : ℚ) : List ValuationResult :=
  sortByConfidenceDesc (VALUATION_METHODS.map (calculate_valuation property_details comparables σ))

/-- Predicate of claim C7: `msg` mentions `name` as a contiguous substring. -/
def mentions (msg name : String) : Prop := name.toList <:+: msg.toList

/-- Concrete subject for the C3 counterexample: a one-bedroom home. -/
def subjectC3 : PropertyDetails :=
  { id := some "1", property_type := some "Single Family", bedrooms := some 1,
    bathrooms := some 2, sqft := some 1000, lot_size := some 2000 }

/-- Concrete candidate for the C3 counterexample: identical to `subjectC3`
except for having zero bedrooms — inside the spec's `[0, 2]` bedroom range,
outside the source's clamped `[1, 2]` range. -/
def candidateC3 : Comp :=
  { id := some "101", property_type := some "Single Family", bedrooms := some 0,
    bathrooms := some 2, sqft := some 1000, sale_price := some 100000 }

/-- Concrete subject for the C8 counterexample and several witnesses. -/
def subjectC8 : PropertyDetails :=
  { id := some "1", property_type := some "Single Family", bedrooms := some 3,
    bathrooms := some 2, sqft := some 1500, lot_size := some 4000,
    annual_rent := some 60000 }

/-- First comparable for the C8 counterexample: identical to `subjectC8` in
size, bedrooms and bathrooms (so every adjustment is zero), sold at 1000. -/
def compC8a : Comp :=
  { id := some "101", property_type := some "Single Family", bedrooms := some 3,
    bathrooms := some 2, sqft := some 1500, sale_price := some 1000 }

/-- Second comparable for the C8 counterexample: as `compC8a`, sold at 1300. -/
def compC8b : Comp :=
  { id := some "102", property_type := some "Single Family", bedrooms := some 3,
    bathrooms := some 2, sqft := some 1500, sale_price := some 1300 }


instance (msg name : String) : Decidable (mentions msg name) :=
  List.decidableInfix _ _

/-! Helper lemmas. -/

theorem make_confidence (m : String) (v c : ℚ) (d : Details) :
    (ValuationResult.make m v c d).confidence = max 0 (min 1 c) := rfl

theorem clamp_nonneg (c : ℚ) : 0 ≤ max 0 (min 1 c) := le_max_left 0 _

theorem clamp_le_one (c : ℚ) : max 0 (min 1 c) ≤ 1 := max_le zero_le_one (min_le_left 1 _)

theorem clamp01_eq {x : ℚ} (h0 : 0 ≤ x) (h1 : x ≤ 1) : max 0 (min 1 x) = x := by
  rw [min_eq_right h1, max_eq_right h0]

theorem round2_mono {x y : ℚ} (h : x ≤ y) : round2 x ≤ round2 y := by
  have hr : round (100 * x) ≤ round (100 * y) := by
    rw [round_eq, round_eq]
    exact Int.floor_le_floor (by linarith)
  have hr2 : ((round (100 * x) : ℤ) : ℚ) ≤ ((round (100 * y) : ℤ) : ℚ) := by
    exact_mod_cast hr
  unfold round2
  linarith

theorem round2_zero : round2 0 = 0 := by norm_num [round2]

theorem round2_half : round2 (1/2) = 1/2 := by norm_num [round2, round_eq]

theorem round2_one : round2 1 = 1 := by norm_num [round2, round_eq]

theorem round2_pt83 : round2 (83/100) = 83/100 := by norm_num [round2, round_eq]

theorem round2_mem_unit {x : ℚ} (h0 : 0 ≤ x) (h1 : x ≤ 1) :
    0 ≤ round2 x ∧ round2 x ≤ 1 :=
  ⟨round2_zero ▸ round2_mono h0, round2_one ▸ round2_mono h1⟩

theorem sales_conf_mem (pd : Option PropertyDetails) (comps : List Comp) (σ : ℚ) :
    0 ≤ (calculate_sales_comparison pd comps σ).confidence ∧
      (calculate_sales_comparison pd comps σ).confidence ≤ 1 := by
  cases pd with
  | none => exact ⟨clamp_nonneg _, clamp_le_one _⟩
  | some s =>
    simp only [calculate_sales_comparison]
    split <;> simp only [make_confidence] <;> exact ⟨clamp_nonneg _, clamp_le_one _⟩

theorem income_conf_cases (pd : Option PropertyDetails) :
    (calculate_income_approach pd).confidence = 0 ∨
      (calculate_income_approach pd).confidence = 7/10 := by
  cases pd with
  | none =>
    left
    simp only [calculate_income_approach, make_confidence]
    norm_num
  | some s =>
    rcases hr : s.annual_rent with _ | rent <;>
      simp only [calculate_income_approach, hr, make_confidence]
    · left; norm_num
    · right; norm_num

theorem cost_conf_cases (pd : Option PropertyDetails) :
    (calculate_cost_approach pd).confidence = 0 ∨
      (calculate_cost_approach pd).confidence = 3/5 := by
  cases pd with
  | none =>
    left
    simp only [calculate_cost_approach, make_confidence]
    norm_num
  | some s =>
    right
    simp only [calculate_cost_approach, make_confidence]
    norm_num

theorem income_conf_mem (pd : Option PropertyDetails) :
    0 ≤ (calculate_income_approach pd).confidence ∧
      (calculate_income_approach pd).confidence ≤ 1 := by
  rcases income_conf_cases pd with h | h <;> rw [h] <;> norm_num

theorem cost_conf_mem (pd : Option PropertyDetails) :
    0 ≤ (calculate_cost_approach pd).confidence ∧
      (calculate_cost_approach pd).confidence ≤ 1 := by
  rcases cost_conf_cases pd with h | h <;> rw [h] <;> norm_num

theorem hybrid_conf_mem (pd : Option PropertyDetails) (comps : List Comp) (σ : ℚ) :
    0 ≤ (calculate_hybrid_valuation pd comps σ).confidence ∧
      (calculate_hybrid_valuation pd comps σ).confidence ≤ 1 := by
  simp only [calculate_hybrid_valuation, make_confidence]
  exact ⟨clamp_nonneg _, clamp_le_one _⟩

theorem valuation_conf_mem (pd : Option PropertyDetails) (comps : List Comp) (σ : ℚ)
    (method : String) :
    0 ≤ (calculate_valuation pd comps σ method).confidence ∧
      (calculate_valuation pd comps σ method).confidence ≤ 1 := by
  cases pd with
  | none => exact ⟨clamp_nonneg _, clamp_le_one _⟩
  | some s =>
    simp only [calculate_valuation]
    split_ifs
    · exact sales_conf_mem _ _ _
    · exact income_conf_mem _
    · exact cost_conf_mem _
    · exact hybrid_conf_mem _ _ _
    · exact ⟨clamp_nonneg _, clamp_le_one _⟩

theorem filter_orderedInsert (c : ℚ) (x : ValuationResult) (l : List ValuationResult) :
    ((l.orderedInsert confGe x).filter (fun r => r.confidence == c))
      = if x.confidence = c
        then x :: l.filter (fun r => r.confidence == c)
        else l.filter (fun r => r.confidence == c) := by
  induction l with
  | nil =>
    by_cases hx : x.confidence = c
    · simp [List.orderedInsert, List.filter_cons, hx]
    · simp [List.orderedInsert, List.filter_cons, hx]
  | cons y t ih =>
    rw [List.orderedInsert]
    by_cases hxy : confGe x y
    · rw [if_pos hxy, List.filter_cons, List.filter_cons]
      by_cases hx : x.confidence = c <;> by_cases hy : y.confidence = c <;>
        simp [hx, hy, List.filter_cons]
    · rw [if_neg hxy, List.filter_cons, ih]
      have hlt : x.confidence < y.confidence := lt_of_not_le hxy
      by_cases hx : x.confidence = c
      · have hy : ¬ y.confidence = c := by
          intro hyc
          rw [hx] at hlt
          rw [hyc] at hlt
          exact lt_irrefl c hlt
        simp [hx, hy]
      · by_cases hy : y.confidence = c <;> simp [hx, hy]

theorem filter_sortByConfidenceDesc (c : ℚ) (rs : List ValuationResult) :
    (sortByConfidenceDesc rs).filter (fun r => r.confidence == c)
      = rs.filter (fun r => r.confidence == c) := by
  induction rs with
  | nil => rfl
  | cons y t ih =>
    simp only [sortByConfidenceDesc, List.insertionSort] at *
    rw [filter_orderedInsert, List.filter_cons]
    by_cases hy : y.confidence = c <;> simp [hy, ih]

theorem sorted_sortByConfidenceDesc (rs : List ValuationResult) :
    List.Sorted confGe (sortByConfidenceDesc rs) :=
  List.sorted_insertionSort confGe rs

theorem perm_sortByConfidenceDesc (rs : List ValuationResult) :
    (sortByConfidenceDesc rs).Perm rs :=
  List.perm_insertionSort confGe rs

theorem make_value (m : String) (v c : ℚ) (d : Details) :
    (ValuationResult.make m v c d).value = v := rfl

theorem make_details (m : String) (v c : ℚ) (d : Details) :
    (ValuationResult.make m v c d).details = d := rfl

/-! Claim theorems. -/

/-- C1: whatever confidence value is passed in, the `ValuationResult`
constructor stores a confidence in `[0, 1]`, and every result produced by
the dispatcher, by each of the three method calculators and by the hybrid
combiner satisfies `0 ≤ confidence ≤ 1`. -/
theorem C1_confidence_clamped :
    (∀ (m : String) (v c : ℚ) (d : Details),
        0 ≤ (ValuationResult.make m v c d).confidence ∧
          (ValuationResult.make m v c d).confidence ≤ 1) ∧
    (∀ (pd : Option PropertyDetails) (comps : List Comp) (σ : ℚ) (method : String),
        0 ≤ (calculate_valuation pd comps σ method).confidence ∧
          (calculate_valuation pd comps σ method).confidence ≤ 1) ∧
    (∀ (pd : Option PropertyDetails) (comps : List Comp) (σ : ℚ),
        0 ≤ (calculate_sales_comparison pd comps σ).confidence ∧
          (calculate_sales_comparison pd comps σ).confidence ≤ 1) ∧
    (∀ pd : Option PropertyDetails,
        0 ≤ (calculate_income_approach pd).confidence ∧
          (calculate_income_approach pd).confidence ≤ 1) ∧
    (∀ pd : Option PropertyDetails,
        0 ≤ (calculate_cost_approach pd).confidence ∧
          (calculate_cost_approach pd).confidence ≤ 1) ∧
    (∀ (pd : Option PropertyDetails) (comps : List Comp) (σ : ℚ),
        0 ≤ (calculate_hybrid_valuation pd comps σ).confidence ∧
          (calculate_hybrid_valuation pd comps σ).confidence ≤ 1) :=
  ⟨fun _ _ c _ => ⟨clamp_nonneg c, clamp_le_one c⟩,
   valuation_conf_mem, sales_conf_mem, income_conf_mem, cost_conf_mem, hybrid_conf_mem⟩

/-- C2: the hybrid value equals `0.5*v1 + 0.3*v2 + 0.2*v3` rounded to two
decimals, where `v1, v2, v3` are the sales-comparison, income and cost
sub-results' values, and likewise for confidence with `c1, c2, c3`; the
weights are fixed, so a failed sub-result (value 0, confidence 0) is
blended in at full weight with no renormalization. -/
theorem C2_hybrid_weighted_blend (pd : Option PropertyDetails) (comps : List Comp) (σ : ℚ) :
    (calculate_hybrid_valuation pd comps σ).value
      = round2 ((calculate_sales_comparison pd comps σ).value * (1/2)
          + (calculate_income_approach pd).value * (3/10)
          + (calculate_cost_approach pd).value * (1/5)) ∧
    (calculate_hybrid_valuation pd comps σ).confidence
      = round2 ((calculate_sales_comparison pd comps σ).confidence * (1/2)
          + (calculate_income_approach pd).confidence * (3/10)
          + (calculate_cost_approach pd).confidence * (1/5)) := by
  constructor
  · rfl
  · simp only [calculate_hybrid_valuation, make_confidence]
    obtain ⟨hs0, hs1⟩ := sales_conf_mem pd comps σ
    obtain ⟨hi0, hi1⟩ := income_conf_mem pd
    obtain ⟨hc0, hc1⟩ := cost_conf_mem pd
    have h0 : 0 ≤ (calculate_sales_comparison pd comps σ).confidence * (1/2)
        + (calculate_income_approach pd).confidence * (3/10)
        + (calculate_cost_approach pd).confidence * (1/5) := by linarith
    have h1 : (calculate_sales_comparison pd comps σ).confidence * (1/2)
        + (calculate_income_approach pd).confidence * (3/10)
        + (calculate_cost_approach pd).confidence * (1/5) ≤ 1 := by linarith
    obtain ⟨hr0, hr1⟩ := round2_mem_unit h0 h1
    exact clamp01_eq hr0 hr1

/-- C3 counterexample: for a one-bedroom subject, a zero-bedroom candidate
lies inside the claimed range `[bedrooms − 1, bedrooms + 1] = [0, 2]` and
passes the other three filters, yet the source's selector excludes it,
because its bedroom lower bound is `max(1, bedrooms − 1) = 1`, not
`bedrooms − 1 = 0`. -/
theorem C3_counterexample :
    get_comparable_sales subjectC3 [candidateC3] 5 = [] ∧
    selectSpec subjectC3 [candidateC3] 5 = [candidateC3] ∧
    get_comparable_sales subjectC3 [candidateC3] 5 ≠ selectSpec subjectC3 [candidateC3] 5 := by
  refine ⟨?_, ?_, ?_⟩
  · norm_num [get_comparable_sales, cellBetween, subjectC3, candidateC3, List.filter]
  · norm_num [selectSpec, specMatches, cellBetween, subjectC3, candidateC3, List.filter]
  · norm_num [get_comparable_sales, selectSpec, specMatches, cellBetween, subjectC3,
      candidateC3, List.filter]

/-- C3 (amended): for a subject carrying all four fields, the selector
returns exactly the candidates passing the conjunction of the four source
filters — `property_type` equal, `bedrooms` within
`[max(1, bedrooms − 1), bedrooms + 1]`, `bathrooms` within
`[max(1, bathrooms − 0.5), bathrooms + 0.5]`, `sqft` within
`[0.8·sqft, 1.2·sqft]`, all inclusive (in particular a candidate with
`sqft` exactly `1.2 × subject.sqft` is included) — in the order the
repository presented them, truncated to `max_comparables`. -/
theorem C3_selector_characterization (subject : PropertyDetails) (cands : List Comp)
    (n : ℕ) (pt : String) (b ba q : ℚ)
    (hpt : subject.property_type = some pt) (hb : subject.bedrooms = some b)
    (hba : subject.bathrooms = some ba) (hq : subject.sqft = some q) :
    get_comparable_sales subject cands n
      = (cands.filter (fun c =>
          c.property_type == some pt
          && cellBetween c.bedrooms (max 1 (b - 1)) (b + 1)
          && cellBetween c.bathrooms (max 1 (ba - 1/2)) (ba + 1/2)
          && cellBetween c.sqft (q * (4/5)) (q * (6/5)))).take n := by
  simp only [get_comparable_sales, hpt, hb, hba, hq]
  rw [List.filter_filter, List.filter_filter, List.filter_filter]
  congr 1
  apply List.filter_congr
  intro c _
  cases c.property_type == some pt <;>
    cases cellBetween c.bedrooms (max 1 (b - 1)) (b + 1) <;>
    cases cellBetween c.bathrooms (max 1 (ba - 1/2)) (ba + 1/2) <;>
    cases cellBetween c.sqft (q * (4/5)) (q * (6/5)) <;> rfl

/-- C3 witness: the amended characterization applied to a concrete subject
with all four fields present. -/
theorem C3_witness :
    subjectC8.property_type = some "Single Family" ∧
    get_comparable_sales subjectC8 [compC8a] 5
      = ([compC8a].filter (fun c =>
          c.property_type == some "Single Family"
          && cellBetween c.bedrooms (max 1 (3 - 1)) (3 + 1)
          && cellBetween c.bathrooms (max 1 (2 - 1/2)) (2 + 1/2)
          && cellBetween c.sqft (1500 * (4/5)) (1500 * (6/5)))).take 5 :=
  ⟨rfl, C3_selector_characterization subjectC8 [compC8a] 5 "Single Family" 3 2 1500
    rfl rfl rfl rfl⟩

/-- C4: the per-comparable adjustment is a total pure function over the
numeric record fields: the price-per-sqft divisor `max(1, comp.sqft)` is
strictly positive (so the division is well defined even when `comp.sqft`
is 0 or missing) and recovers `comp.sale_price` exactly, and the size
adjustment is the guarded quotient times the size difference times the
0.5 factor. -/
theorem C4_adjustment_total (subject : PropertyDetails) (comp : Comp) :
    0 < max 1 (comp.sqft.getD 1) ∧
    pricePerSqft comp * max 1 (comp.sqft.getD 1) = comp.sale_price.getD 0 ∧
    (adjust subject comp).size_adj
      = (subject.sqft.getD 0 - comp.sqft.getD 0) * pricePerSqft comp * (1/2) := by
  have hpos : (0:ℚ) < max 1 (comp.sqft.getD 1) :=
    lt_of_lt_of_le zero_lt_one (le_max_left _ _)
  exact ⟨hpos, div_mul_cancel₀ _ (ne_of_gt hpos), rfl⟩

/-- C5: every adjustment record produced by the engine satisfies
`adjusted_price = original_price + size + bedrooms + bathrooms` with no
other terms; for a comparable with a missing `sale_price` the stored
`original_price` is `None` (= `comp.get('sale_price')`) and the price used
on both sides is the `dict.get` default 0, so the identity holds with
`original_price.getD 0`. -/
theorem C5_adjusted_price_decomposition :
    (∀ (subject : PropertyDetails) (comp : Comp),
        (adjust subject comp).adjusted_price
          = (adjust subject comp).original_price.getD 0 + (adjust subject comp).size_adj
            + (adjust subject comp).bed_adj + (adjust subject comp).bath_adj ∧
        (adjust subject comp).original_price = comp.sale_price) ∧
    (∀ (subject : PropertyDetails) (comps : List Comp) (σ : ℚ) (a : Adjustment),
        a ∈ (calculate_sales_comparison (some subject) comps σ).details.adjustments →
          a.adjusted_price
            = a.original_price.getD 0 + a.size_adj + a.bed_adj + a.bath_adj) := by
  have base : ∀ (subject : PropertyDetails) (comp : Comp),
      (adjust subject comp).adjusted_price
        = (adjust subject comp).original_price.getD 0 + (adjust subject comp).size_adj
          + (adjust subject comp).bed_adj + (adjust subject comp).bath_adj := by
    intro s c
    simp only [adjust]
    ring
  refine ⟨fun s c => ⟨base s c, rfl⟩, ?_⟩
  intro s comps σ a ha
  by_cases h : comps.isEmpty
  · simp [calculate_sales_comparison, h, make_details] at ha
  · have hne : comps.isEmpty = false := eq_false_of_ne_true h
    simp only [calculate_sales_comparison, hne, Bool.false_eq_true, if_false,
      make_details] at ha
    obtain ⟨c, _, rfl⟩ := List.mem_map.mp ha
    exact base s c

/-- C5 witness: a concrete adjustment record taken from the engine's output
satisfies the decomposition. -/
theorem C5_witness :
    adjust subjectC8 compC8a
        ∈ (calculate_sales_comparison (some subjectC8) [compC8a] 0).details.adjustments ∧
    (adjust subjectC8 compC8a).adjusted_price
      = (adjust subjectC8 compC8a).original_price.getD 0
        + (adjust subjectC8 compC8a).size_adj + (adjust subjectC8 compC8a).bed_adj
        + (adjust subjectC8 compC8a).bath_adj := by
  have hmem : adjust subjectC8 compC8a
      ∈ (calculate_sales_comparison (some subjectC8) [compC8a] 0).details.adjustments := by
    simp [calculate_sales_comparison, make_details]
  exact ⟨hmem, C5_adjusted_price_decomposition.2 subjectC8 [compC8a] 0 _ hmem⟩

/-- C6: the income approach on a subject lacking `annual_rent` (including
the empty dict) returns value 0, confidence 0 and a set `details.error`,
raising nothing; on a subject carrying `annual_rent`, it returns
`(annual_rent × 0.75) / 0.06` rounded to two decimals with confidence
fixed at 0.7. -/
theorem C6_income_approach (pd : Option PropertyDetails) :
    (pd.bind PropertyDetails.annual_rent = none →
        (calculate_income_approach pd).value = 0 ∧
        (calculate_income_approach pd).confidence = 0 ∧
        (calculate_income_approach pd).details.error ≠ none) ∧
    (∀ (s : PropertyDetails) (rent : ℚ), pd = some s → s.annual_rent = some rent →
        (calculate_income_approach pd).value = round2 (rent * (3/4) / (3/50)) ∧
        (calculate_income_approach pd).confidence = 7/10) := by
  constructor
  · intro h
    cases pd with
    | none =>
      refine ⟨rfl, ?_, by simp [calculate_income_approach, ValuationResult.make]⟩
      simp only [calculate_income_approach, make_confidence]
      norm_num
    | some s =>
      have hr : s.annual_rent = none := by simpa using h
      refine ⟨?_, ?_, ?_⟩ <;>
        simp only [calculate_income_approach, hr, make_confidence, make_value] <;>
        simp [ValuationResult.make]
  · rintro s rent rfl hr
    constructor
    · simp only [calculate_income_approach, hr, make_value]
    · simp only [calculate_income_approach, hr, make_confidence]
      norm_num

/-- C6 witness: both branches at concrete inputs — the empty dict, and a
subject renting for 60000 a year (value `750000.00`, confidence 0.7). -/
theorem C6_witness :
    ((none : Option PropertyDetails).bind PropertyDetails.annual_rent = none ∧
      (calculate_income_approach none).value = 0 ∧
      (calculate_income_approach none).details.error ≠ none) ∧
    (subjectC8.annual_rent = some 60000 ∧
      (calculate_income_approach (some subjectC8)).value = round2 (60000 * (3/4) / (3/50)) ∧
      (calculate_income_approach (some subjectC8)).confidence = 7/10) := by
  have h1 := (C6_income_approach none).1 rfl
  have h2 := (C6_income_approach (some subjectC8)).2 subjectC8 60000 rfl rfl
  exact ⟨⟨rfl, h1.1, h1.2.2⟩, ⟨rfl, h2.1, h2.2⟩⟩

/-- C7 counterexample: with an empty `property_details` dict, the
dispatcher's emptiness guard fires before the method name is inspected, so
`calculate_valuation({}, "made_up")` carries the error `"No property details
provided"`, which does not mention the unrecognized method name — the claim
as stated (for every unknown method name, `details.error` mentions the
name) fails at this input. -/
theorem C7_counterexample :
    (calculate_valuation none [] 0 "made_up").method = "made_up" ∧
    (calculate_valuation none [] 0 "made_up").value = 0 ∧
    (calculate_valuation none [] 0 "made_up").confidence = 0 ∧
    (calculate_valuation none [] 0 "made_up").details.error
      = some "No property details provided" ∧
    ¬ mentions "No property details provided" "made_up" := by
  refine ⟨rfl, rfl, ?_, rfl, by decide⟩
  simp only [calculate_valuation, make_confidence]
  norm_num

/-- C7 (amended): for every non-empty `property_details` and every method
name outside `VALUATION_METHODS`, the dispatcher does not throw: it returns
a `ValuationResult` with value 0, confidence 0, `details.error` naming the
unrecognized method (`"Unknown valuation method: <name>"`, which mentions
the name), and its `method` field echoing the caller's input string; with
an empty `property_details`, the error is `"No property details provided"`
regardless of the method name. -/
theorem C7_unknown_method (s : PropertyDetails) (comps : List Comp) (σ : ℚ)
    (m : String) (hm : m ∉ VALUATION_METHODS) :
    calculate_valuation (some s) comps σ m
      = ValuationResult.make m 0 0 { error := some ("Unknown valuation method: " ++ m) } ∧
    (calculate_valuation (some s) comps σ m).method = m ∧
    (calculate_valuation (some s) comps σ m).value = 0 ∧
    (calculate_valuation (some s) comps σ m).confidence = 0 ∧
    (calculate_valuation (some s) comps σ m).details.error
      = some ("Unknown valuation method: " ++ m) ∧
    mentions ("Unknown valuation method: " ++ m) m := by
  simp only [VALUATION_METHODS, List.mem_cons, List.not_mem_nil, or_false, not_or] at hm
  obtain ⟨h1, h2, h3, h4⟩ := hm
  have heq : calculate_valuation (some s) comps σ m
      = ValuationResult.make m 0 0 { error := some ("Unknown valuation method: " ++ m) } := by
    simp only [calculate_valuation, if_neg h1, if_neg h2, if_neg h3, if_neg h4]
  have hmen : mentions ("Unknown valuation method: " ++ m) m := by
    show m.toList <:+: ("Unknown valuation method: " ++ m).toList
    have hd : ("Unknown valuation method: " ++ m).toList
        = "Unknown valuation method: ".toList ++ m.toList := by
      simp [String.toList, String.data_append]
    rw [hd]
    exact (List.suffix_append _ _).isInfix
  refine ⟨heq, ?_, ?_, ?_, ?_, hmen⟩ <;> rw [heq]
  · rfl
  · rfl
  · rw [make_confidence]; norm_num
  · rfl

/-- C7 witness: the amended statement applied to the unknown method name
`"made_up"` on a non-empty subject. -/
theorem C7_witness :
    "made_up" ∉ VALUATION_METHODS ∧
    (calculate_valuation (some subjectC8) [] 0 "made_up").method = "made_up" ∧
    (calculate_valuation (some subjectC8) [] 0 "made_up").details.error
      = some ("Unknown valuation method: " ++ "made_up") :=
  ⟨by decide,
   (C7_unknown_method subjectC8 [] 0 "made_up" (by decide)).2.1,
   (C7_unknown_method subjectC8 [] 0 "made_up" (by decide)).2.2.2.2.1⟩

/-- C8 counterexample: two comparables identical to the subject except in
sale price (1000 and 1300) yield adjusted prices `[1000, 1300]`, mean 1150
and exact standard deviation 150 (the last conjunct checks `σ = 150` is
the true population standard deviation); the claimed confidence
`clamp(1 − 150/1150, 0.5, 1) = 20/23` has more than two decimals, while
the stored confidence is the rounded `87/100 ≠ 20/23` — the claim as
stated (confidence equals the clamp exactly) fails at this input. -/
theorem C8_counterexample :
    (calculate_sales_comparison (some subjectC8) [compC8a, compC8b] 150).confidence
      = 87/100 ∧
    ((([compC8a, compC8b]).map (adjust subjectC8)).map (fun a => a.adjusted_price))
      = [1000, 1300] ∧
    mean [1000, 1300] = 1150 ∧
    min 1 (max (1/2) (1 - 150 / (1150:ℚ))) = 20/23 ∧
    (87/100 : ℚ) ≠ 20/23 ∧
    (150:ℚ)^2 * 2 = (1000 - 1150)^2 + (1300 - 1150)^2 := by
  refine ⟨?_, ?_, ?_, ?_, by norm_num, by norm_num⟩
  · norm_num [calculate_sales_comparison, ValuationResult.make, round2, round_eq, mean,
      adjust, pricePerSqft, compC8a, compC8b, subjectC8, List.isEmpty]
  · norm_num [adjust, pricePerSqft, compC8a, compC8b, subjectC8]
  · norm_num [mean]
  · norm_num

/-- C8 (amended): for every non-empty list of selected comparables, the
sales-comparison value is `mean(adjusted_price)` rounded to two decimals,
and the stored confidence is `clamp(1 − std_dev/mean, 0.5, 1.0)` for
nonzero mean (else 0.5) *rounded to two decimals*; in particular the
confidence is never below 0.5 whenever comparables exist. -/
theorem C8_sales_comparison_formula (s : PropertyDetails) (comps : List Comp) (σ : ℚ)
    (h : comps ≠ []) :
    (calculate_sales_comparison (some s) comps σ).value
      = round2 (mean ((comps.map (adjust s)).map (fun a => a.adjusted_price))) ∧
    (calculate_sales_comparison (some s) comps σ).confidence
      = round2 (if mean ((comps.map (adjust s)).map (fun a => a.adjusted_price)) ≠ 0
          then min 1 (max (1/2)
            (1 - σ / mean ((comps.map (adjust s)).map (fun a => a.adjusted_price))))
          else 1/2) ∧
    1/2 ≤ (calculate_sales_comparison (some s) comps σ).confidence := by
  have hne : comps.isEmpty = false := by simpa [List.isEmpty_iff] using h
  refine ⟨?_, ?_⟩
  · simp only [calculate_sales_comparison, hne, Bool.false_eq_true, if_false, make_value]
  · simp only [calculate_sales_comparison, hne, Bool.false_eq_true, if_false,
      make_confidence]
    set μ := mean ((comps.map (adjust s)).map (fun a => a.adjusted_price)) with hμ
    set conf : ℚ := if μ ≠ 0 then min 1 (max (1/2) (1 - σ / μ)) else 1/2 with hconf
    have hc12 : 1/2 ≤ conf := by
      rw [hconf]
      split_ifs
      · exact le_min (by norm_num) (le_max_left _ _)
      · exact le_refl _
    have hc1 : conf ≤ 1 := by
      rw [hconf]
      split_ifs
      · exact min_le_left _ _
      · norm_num
    have hr12 : 1/2 ≤ round2 conf := round2_half ▸ round2_mono hc12
    have hr1 : round2 conf ≤ 1 := round2_one ▸ round2_mono hc1
    have hr0 : 0 ≤ round2 conf := le_trans (by norm_num) hr12
    exact ⟨clamp01_eq hr0 hr1, le_trans hr12 (le_of_eq (clamp01_eq hr0 hr1).symm)⟩

/-- C8 witness: the amended formula applied to a concrete one-comparable
input. -/
theorem C8_witness :
    ([compC8a] : List Comp) ≠ [] ∧
    (calculate_sales_comparison (some subjectC8) [compC8a] 0).value
      = round2 (mean (([compC8a].map (adjust subjectC8)).map (fun a => a.adjusted_price))) ∧
    1/2 ≤ (calculate_sales_comparison (some subjectC8) [compC8a] 0).confidence :=
  ⟨List.cons_ne_nil _ _,
   (C8_sales_comparison_formula subjectC8 [compC8a] 0 (List.cons_ne_nil _ _)).1,
   (C8_sales_comparison_formula subjectC8 [compC8a] 0 (List.cons_ne_nil _ _)).2.2⟩

/-- C9: the all-methods result sequence is a permutation of the four
per-method results, sorted by confidence descending (`confGe`), and stable:
for every confidence value, the results carrying it appear in the same
order as in the original method invocation order. -/
theorem C9_all_methods_sorted (pd : Option PropertyDetails) (comps : List Comp) (σ : ℚ) :
    (run_all_methods pd comps σ).Perm
        (VALUATION_METHODS.map (calculate_valuation pd comps σ)) ∧
    List.Sorted confGe (run_all_methods pd comps σ) ∧
    (∀ c : ℚ, (run_all_methods pd comps σ).filter (fun r => r.confidence == c)
        = (VALUATION_METHODS.map (calculate_valuation pd comps σ)).filter
            (fun r => r.confidence == c)) :=
  ⟨perm_sortByConfidenceDesc _, sorted_sortByConfidenceDesc _,
   fun c => filter_sortByConfidenceDesc c _⟩

/-- C10: the income confidence is always 0 or 0.7, the cost confidence
always 0 or 0.6, the sales-comparison confidence at most 1, and therefore
the hybrid confidence — the rounded, clamped 0.5/0.3/0.2 blend — never
exceeds `0.5×1 + 0.3×0.7 + 0.2×0.6 = 0.83`. -/
theorem C10_hybrid_confidence_cap (pd : Option PropertyDetails) (comps : List Comp)
    (σ : ℚ) :
    ((calculate_income_approach pd).confidence = 0 ∨
      (calculate_income_approach pd).confidence = 7/10) ∧
    ((calculate_cost_approach pd).confidence = 0 ∨
      (calculate_cost_approach pd).confidence = 3/5) ∧
    (calculate_sales_comparison pd comps σ).confidence ≤ 1 ∧
    (calculate_hybrid_valuation pd comps σ).confidence ≤ 83/100 := by
  refine ⟨income_conf_cases pd, cost_conf_cases pd, (sales_conf_mem pd comps σ).2, ?_⟩
  obtain ⟨hs0, hs1⟩ := sales_conf_mem pd comps σ
  have hi : (calculate_income_approach pd).confidence ≤ 7/10 := by
    rcases income_conf_cases pd with h | h <;> norm_num [h]
  have hc : (calculate_cost_approach pd).confidence ≤ 3/5 := by
    rcases cost_conf_cases pd with h | h <;> norm_num [h]
  simp only [calculate_hybrid_valuation, make_confidence]
  have hwc : (calculate_sales_comparison pd comps σ).confidence * (1/2)
      + (calculate_income_approach pd).confidence * (3/10)
      + (calculate_cost_approach pd).confidence * (1/5) ≤ 83/100 := by linarith
  have h1 : round2 ((calculate_sales_comparison pd comps σ).confidence * (1/2)
      + (calculate_income_approach pd).confidence * (3/10)
      + (calculate_cost_approach pd).confidence * (1/5)) ≤ 83/100 :=
    round2_pt83 ▸ round2_mono hwc
  exact max_le (by norm_num) (le_trans (min_le_right _ _) h1)
